import Mathlib

/-!
# Verification of the audiofx-processor audio engine

Shallow embedding of the reverb DSP kernels, the safety limiter, the
settings application, the offline-render sizing and the WAV encoder of
the `audiofx-processor` repository, together with proofs settling the
frozen claims about its specification.

Sources embedded:
* `src/audiofx-processor/reverb-processor.js` (the single-variant FDN
  kernel, namespace `RP`), identical to the worklet string in
  `src/services/audioEngine.ts`;
* the multi-variant kernel of the second engine snapshot in
  `src/unnamed/part_001` (namespace `MV`);
* `AudioEngine.updateSettings`, `AudioEngine.renderOffline` and
  `AudioEngine.bufferToWav` from `src/services/audioEngine.ts`, with the
  diverging variants from `src/unnamed/part_001` embedded alongside;
* `AudioEngine.startSafetyMonitoring` from `src/unnamed/part_001`.

Exact sample values are modelled over `ℚ` (every constant appearing in
the relevant code paths is an exact dyadic, so `ℚ` arithmetic coincides
with the JavaScript double arithmetic there); the transcendental parts
of the kernels (`Math.pow(10, ·)`, `Math.sin`) are passed in as explicit
function arguments so that the kernels stay polymorphic and the analytic
claims can instantiate them with the real functions.
-/

namespace AudioFx

/-- A command issued against a Web Audio `AudioParam`: either a direct
value assignment (`param.value = v`) or a smoothed exponential ramp
(`param.setTargetAtTime(v, now, ramp)`). -/
inductive GainCommand where
  | setValue : ℚ → GainCommand
  | setTarget : ℚ → ℚ → GainCommand
  deriving DecidableEq, Repr

/-! ## SafetyLimiter (`AudioEngine.startSafetyMonitoring`, `src/unnamed/part_001` lines 189-213) -/

/-- Peak absolute amplitude of a monitored window, computed exactly as the
`checkLevel` loop does: start from `0` and replace the running maximum
whenever `Math.abs(dataArray[i])` exceeds it. -/
def peakAbs (w : List ℚ) : ℚ :=
  w.foldl (fun m x => if |x| > m then |x| else m) 0

/-- Outcome of one safety-monitor poll: the command issued against the
master gain (if any), whether the one-shot auto-mute notification fired,
and whether another poll is scheduled. -/
structure SafetyResult where
  gainCmd : Option GainCommand
  notified : Bool
  continuePolling : Bool
  deriving DecidableEq, Repr

/-- One `checkLevel` poll of the safety monitor: if the window's peak
exceeds `1.5`, assign `0` to the master gain directly
(`gain.value = 0`), invoke the auto-mute callback and do not re-schedule;
otherwise leave the gain alone and schedule the next poll. -/
def checkLevel (w : List ℚ) : SafetyResult :=
  if peakAbs w > 1.5 then
    { gainCmd := some (GainCommand.setValue 0), notified := true, continuePolling := false }
  else
    { gainCmd := none, notified := false, continuePolling := true }

/-! ## WAV sample conversion (`AudioEngine.bufferToWav` sample loop,
`src/services/audioEngine.ts` lines 302-308; the `src/unnamed/part_001`
encoder at lines 703-710 performs the identical computation) -/

/-- `Math.max(-1, Math.min(1, sample))`. -/
def clampSample (x : ℚ) : ℚ := max (-1) (min 1 x)

/-- `sample < 0 ? sample * 0x8000 : sample * 0x7FFF`. -/
def scaleSample (c : ℚ) : ℚ := if c < 0 then c * 32768 else c * 32767

/-- Truncation toward zero, the integer conversion JavaScript's
`DataView.setInt16` applies to a finite number. -/
def truncQ (q : ℚ) : ℤ := if q < 0 then -⌊-q⌋ else ⌊q⌋

/-- Wrapping of an integer into the signed 16-bit range, the final step
of `DataView.setInt16`. -/
def wrapInt16 (t : ℤ) : ℤ := (t + 32768) % 65536 - 32768

/-- Full conversion performed per sample by `bufferToWav`: clamp,
asymmetric scale, then store through `setInt16`. -/
def floatToInt16 (x : ℚ) : ℤ := wrapInt16 (truncQ (scaleSample (clampSample x)))

/-- The conversion as the specification words it: clamp to `[-1, 1]`,
then multiply negative values by 32768 and the rest by 32767 (the spec
does not mention any wrap-around step). -/
def specConvert (x : ℚ) : ℤ := truncQ (scaleSample (clampSample x))

/-! ## Offline render length -/

/-- Rendered buffer length of `AudioEngine.renderOffline` in
`src/services/audioEngine.ts` (lines 229-230): the source duration
(`srcLen / fs` seconds) plus the reverb duration plus a fixed `0.5` s
guard, multiplied by the render sample rate and rounded up.  The
`src/unnamed/part_001` first-snapshot renderer (lines 273-274) computes
the same expression with `fs = 48000`. -/
def renderLength (srcLen fs : ℕ) (reverbDuration : ℚ) : ℕ :=
  ⌈((srcLen : ℚ) / fs + reverbDuration + 0.5) * fs⌉₊

/-- Rendered buffer length of the multi-algorithm snapshot's
`renderOffline` (`src/unnamed/part_001` line 630): the offline context is
sized to exactly the decoded input length, with no reverb tail or guard. -/
def renderLengthMV (srcLen : ℕ) : ℕ := srcLen

/-! ## Settings and the bypass paths -/

/-- The slice of `AudioSettings` read by the embedded operations
(union of the fields of `src/types.ts` and
`src/audiofx-processor/types.ts`). -/
structure Settings where
  wetGain : ℚ
  wetPathDryGain : ℚ
  bypassGain : ℚ
  masterGain : ℚ
  bypassEffects : Bool
  deriving DecidableEq, Repr

/-- Per-sample transfer of the bypass branch of
`AudioEngine.renderOffline` in `src/services/audioEngine.ts`
(lines 257-261): `source → bypass(gain = settings.bypassGain) →
destination`.  No master-gain stage exists anywhere in that render. -/
def bypassRenderA (s : Settings) (x : ℚ) : ℚ := s.bypassGain * x

/-- Per-sample transfer of the bypass branch of the first-snapshot
`renderOffline` in `src/unnamed/part_001` (lines 285-288):
`source → master(gain = settings.masterGain) → destination`.  No
bypass-gain stage exists in that branch. -/
def bypassRenderB (s : Settings) (x : ℚ) : ℚ := s.masterGain * x

/-- The bypass render path as the claim words it: the input routed
through the bypass gain at the current `bypassGain` setting, followed by
the master gain. -/
def bypassRenderClaim (s : Settings) (x : ℚ) : ℚ := s.masterGain * (s.bypassGain * x)

/-- Gain-ramp commands emitted by one `updateSettings` call of
`src/services/audioEngine.ts` (lines 192-200) for the three mix gains. -/
structure MixCommandsA where
  wet : GainCommand
  wetPathDry : GainCommand
  bypass : GainCommand
  deriving DecidableEq, Repr

/-- `AudioEngine.updateSettings` of `src/services/audioEngine.ts`
(lines 192-200): with bypass enabled, wet and wet-path-dry ramp to `0`
and the bypass node ramps to `settings.bypassGain`; with bypass
disabled, the bypass node ramps to `0` and the wet gains ramp back to
the user-set values.  The ramp constant is `0.05`. -/
def updateSettingsA (s : Settings) : MixCommandsA :=
  if s.bypassEffects then
    { wet := GainCommand.setTarget 0 0.05
      wetPathDry := GainCommand.setTarget 0 0.05
      bypass := GainCommand.setTarget s.bypassGain 0.05 }
  else
    { wet := GainCommand.setTarget s.wetGain 0.05
      wetPathDry := GainCommand.setTarget s.wetPathDryGain 0.05
      bypass := GainCommand.setTarget 0 0.05 }

/-- Gain-ramp commands emitted by one `updateSettings` call of the
first engine snapshot in `src/unnamed/part_001` (lines 232-244), which
also drives a master gain. -/
structure MixCommandsB where
  wet : GainCommand
  wetPathDry : GainCommand
  bypass : GainCommand
  master : GainCommand
  deriving DecidableEq, Repr

/-- `AudioEngine.updateSettings` of the first `src/unnamed/part_001`
snapshot (lines 232-244): identical to `updateSettingsA` except that the
bypass node ramps to the fixed contract value `1.0` and the master gain
always ramps to `settings.masterGain`. -/
def updateSettingsB (s : Settings) : MixCommandsB :=
  if s.bypassEffects then
    { wet := GainCommand.setTarget 0 0.05
      wetPathDry := GainCommand.setTarget 0 0.05
      bypass := GainCommand.setTarget 1 0.05
      master := GainCommand.setTarget s.masterGain 0.05 }
  else
    { wet := GainCommand.setTarget s.wetGain 0.05
      wetPathDry := GainCommand.setTarget s.wetPathDryGain 0.05
      bypass := GainCommand.setTarget 0 0.05
      master := GainCommand.setTarget s.masterGain 0.05 }

/-! ## WAV header (`AudioEngine.bufferToWav`, `src/services/audioEngine.ts`
lines 279-299; the `src/unnamed/part_001` encoders write the same bytes) -/

/-- `DataView.setUint16(p, v, true)` as its two little-endian
position/byte writes (`DataView` stores each byte reduced mod 256, which
`byteAt` applies on lookup). -/
def u16bytes (p v : ℕ) : List (ℕ × ℕ) := [(p, v), (p + 1, v / 256)]

/-- `DataView.setUint32(p, v, true)` as its four little-endian
position/byte writes. -/
def u32bytes (p v : ℕ) : List (ℕ × ℕ) :=
  [(p, v), (p + 1, v / 256), (p + 2, v / 65536), (p + 3, v / 16777216)]

/-- The `setString` helper: one `setUint8` write per character code. -/
def strBytes (p : ℕ) : List ℕ → List (ℕ × ℕ)
  | [] => []
  | b :: bs => (p, b) :: strBytes (p + 1) bs

/-- Look a byte position up in a write log (a fresh `ArrayBuffer` is
zero-initialised, hence the `0` fallback).  The header's 44 write
positions are pairwise distinct, so taking the first matching write is
the same as taking the last one. -/
def byteAt : List (ℕ × ℕ) → ℕ → ℕ
  | [], _ => 0
  | (p, b) :: rest, i => if i = p then b % 256 else byteAt rest i

/-- The header writes performed by `bufferToWav`
(`src/services/audioEngine.ts` lines 287-299) for a buffer of `frames`
frames, `chans` channels at sample rate `fs`, in the code's order; the
running `pos` of that code takes exactly the literal offsets used by the
second `src/unnamed/part_001` encoder.  `len` is the full file size
`frames * chans * 2 + 44`. -/
def wavWrites (frames chans fs : ℕ) : List (ℕ × ℕ) :=
  let len := frames * chans * 2 + 44
  strBytes 0 [82, 73, 70, 70] ++          -- 'RIFF'
    u32bytes 4 (len - 8) ++
    strBytes 8 [87, 65, 86, 69] ++        -- 'WAVE'
    strBytes 12 [102, 109, 116, 32] ++    -- 'fmt '
    u32bytes 16 16 ++
    u16bytes 20 1 ++
    u16bytes 22 chans ++
    u32bytes 24 fs ++
    u32bytes 28 (fs * 2 * chans) ++
    u16bytes 32 (chans * 2) ++
    u16bytes 34 16 ++
    strBytes 36 [100, 97, 116, 97] ++     -- 'data'
    u32bytes 40 (len - 40 - 4)

/-- The serialized header, byte position to byte value. -/
def wavHeader (frames chans fs i : ℕ) : ℕ := byteAt (wavWrites frames chans fs) i

/-- Little-endian 16-bit read-back of the serialized header. -/
def readU16 (m : ℕ → ℕ) (p : ℕ) : ℕ := m p + 256 * m (p + 1)

/-- Little-endian 32-bit read-back of the serialized header. -/
def readU32 (m : ℕ → ℕ) (p : ℕ) : ℕ :=
  m p + 256 * m (p + 1) + 65536 * m (p + 2) + 16777216 * m (p + 3)

/-! ## The single-variant FDN kernel
(`src/audiofx-processor/reverb-processor.js`; the worklet string of
`src/services/audioEngine.ts` is the same code) -/

namespace RP

variable {F : Type} [LinearOrderedField F] [FloorRing F]

/-- The worklet parameters read by `ReverbProcessor.process` (first value
of each parameter array). -/
structure Params (F : Type) where
  rt60 : F
  damping : F
  preDelay : F

/-- Internal kernel state: four delay lines with their lengths, buffers
and write cursors, the pre-delay circular buffer with its cursor, and the
per-line one-pole lowpass state. -/
@[ext] structure State (F : Type) where
  dLen : Fin 4 → ℕ
  dBuf : Fin 4 → ℕ → F
  dPtr : Fin 4 → ℕ
  preLen : ℕ
  preBuf : ℕ → F
  prePtr : ℕ
  lp : Fin 4 → F

/-- The constructor of `ReverbProcessor`: delay lengths
`Math.floor(1331 * fs/48000)` … (a natural-number division, since
`1331 * fs` is an integer), a pre-delay buffer of `Math.floor(fs)`
samples, all buffers, cursors and lowpass states zeroed. -/
def initState (fs : ℕ) : State F :=
  { dLen := ![1331 * fs / 48000, 1693 * fs / 48000, 2011 * fs / 48000, 2381 * fs / 48000]
    dBuf := fun _ _ => 0
    dPtr := fun _ => 0
    preLen := fs
    preBuf := fun _ => 0
    prePtr := 0
    lp := fun _ => 0 }

/-- The per-pass feedback gain computed for a delay line of `size`
samples: `Math.pow(10, (-3 * size) / (rt60 * fs))`.  `pow10` is
`Math.pow` with base 10. -/
def gain (pow10 : F → F) (size : ℕ) (rt60 : F) (fs : ℕ) : F :=
  pow10 ((-3 * (size : F)) / (rt60 * (fs : F)))

/-- One iteration of the sample loop of `ReverbProcessor.process`
(lines 63-94): pre-delay write/read/advance, Householder FDN mix,
per-line damping lowpass and re-injection, cursor advance, stereo output
from the disjoint line pairs.  The modulus in the pre-delay read index is
`Int.emod`, which agrees with the JavaScript `%` here because the
dividend `prePtr - preDelaySamples + preLen` is positive whenever
`preLen ≥ 1` (as `preDelaySamples ≤ preLen - 1`). -/
def processSample (pow10 : F → F) (fs : ℕ) (p : Params F) (s : State F) (x : F) :
    State F × F × F :=
  let feedbackGains : Fin 4 → F := fun j => gain pow10 (s.dLen j) p.rt60 fs
  let lpCoef : F := min 0.95 (1 / p.damping)
  let preDelaySamples : ℤ := min ((s.preLen : ℤ) - 1) ⌊p.preDelay * (fs : F)⌋
  let preBuf' : ℕ → F := fun k => if k = s.prePtr then x else s.preBuf k
  let readPtr : ℕ := (((s.prePtr : ℤ) - preDelaySamples + (s.preLen : ℤ)) % (s.preLen : ℤ)).toNat
  let delayedInput : F := preBuf' readPtr
  let prePtr' : ℕ := (s.prePtr + 1) % s.preLen
  let nodeSignals : Fin 4 → F := fun j => s.dBuf j (s.dPtr j)
  let sum := nodeSignals 0 + nodeSignals 1 + nodeSignals 2 + nodeSignals 3
  let mix := sum * 0.5
  let lp' : Fin 4 → F := fun j =>
    ((nodeSignals j - mix) * feedbackGains j + delayedInput) * (1 - lpCoef) + s.lp j * lpCoef
  let dBuf' : Fin 4 → ℕ → F := fun j k => if k = s.dPtr j then lp' j else s.dBuf j k
  let dPtr' : Fin 4 → ℕ := fun j => (s.dPtr j + 1) % s.dLen j
  ({ s with preBuf := preBuf', prePtr := prePtr', dBuf := dBuf', dPtr := dPtr', lp := lp' },
    (nodeSignals 0 + nodeSignals 2) * 0.5, (nodeSignals 1 + nodeSignals 3) * 0.5)

/-- The whole sample loop over one block's input channel, returning the
final state and the `(outL[i], outR[i])` samples in order. -/
def processBlock (pow10 : F → F) (fs : ℕ) (p : Params F) :
    List F → State F → State F × List (F × F)
  | [], s => (s, [])
  | x :: rest, s =>
    let step := processSample pow10 fs p s x
    let next := processBlock pow10 fs p rest step.1
    (next.1, step.2 :: next.2)

/-- `ReverbProcessor.process`: `inputs` is the worklet's nested
input/channel/sample structure.  If there is no input (`!input`) or no
first channel (`!input[0]`), the method returns `true` at once; otherwise
the block is processed and the outputs written.  The returned `Option`
is `none` exactly when no output sample was written. -/
def process (pow10 : F → F) (fs : ℕ) (p : Params F)
    (inputs : List (List (List F))) (s : State F) :
    Bool × State F × Option (List (F × F)) :=
  match inputs.head? with
  | none => (true, s, none)
  | some input =>
    match input.head? with
    | none => (true, s, none)
    | some inputChannel =>
      let r := processBlock pow10 fs p inputChannel s
      (true, r.1, some r.2)

/-- Well-formedness of a kernel state: positive buffer lengths and every
cursor inside `[0, length)` of its buffer. -/
def WF (s : State F) : Prop :=
  (∀ j, 0 < s.dLen j) ∧ 0 < s.preLen ∧ (∀ j, s.dPtr j < s.dLen j) ∧ s.prePtr < s.preLen

instance (s : State F) : Decidable (WF s) := by unfold WF; infer_instance

end RP

/-! ## The multi-variant kernel (second engine snapshot of
`src/unnamed/part_001`, worklet string at lines 387-511): three
selectable algorithms — Lexicon 4-line FDN (`mode < 0.5`), Bricasti
stereo comb bank (`mode < 1.5`), TC 8-line FDN (otherwise) — over a
shared pre-delay line. -/

namespace MV

variable {F : Type} [LinearOrderedField F] [FloorRing F]

/-- The worklet parameters read by the multi-variant
`ReverbProcessor.process`. -/
structure Params (F : Type) where
  mode : F
  rt60 : F
  preDelay : F
  lexSpin : F
  lexWander : F
  briDensity : F
  briSize : F
  tcAir : F
  tcEarlyLate : F
  tcHiDamp : F

/-- Internal state: the Lexicon FDN lines, the Bricasti left/right comb
banks (base lengths and 6×-oversized buffers), the TC FDN lines, the
pre-delay line and the low-frequency-oscillator phase. -/
@[ext] structure State (F : Type) where
  lexLen : Fin 4 → ℕ
  lexBuf : Fin 4 → ℕ → F
  lexPtr : Fin 4 → ℕ
  briBaseL : Fin 4 → ℕ
  briBaseR : Fin 4 → ℕ
  briBufL : Fin 4 → ℕ → F
  briBufR : Fin 4 → ℕ → F
  briPtrL : Fin 4 → ℕ
  briPtrR : Fin 4 → ℕ
  tcLen : Fin 8 → ℕ
  tcBuf : Fin 8 → ℕ → F
  tcPtr : Fin 8 → ℕ
  preLen : ℕ
  preBuf : ℕ → F
  prePtr : ℕ
  lfo : F

/-- The constructor: every length is `Math.floor(l * (fs/44100))`
(a natural-number division), the Bricasti buffers are allocated at six
times their base length, the pre-delay buffer holds `fs` samples, and
everything is zeroed. -/
def initState (fs : ℕ) : State F :=
  { lexLen := ![1487 * fs / 44100, 1877 * fs / 44100, 2237 * fs / 44100, 2593 * fs / 44100]
    lexBuf := fun _ _ => 0
    lexPtr := fun _ => 0
    briBaseL := ![1116 * fs / 44100, 1356 * fs / 44100, 1422 * fs / 44100, 1610 * fs / 44100]
    briBaseR := ![1131 * fs / 44100, 1372 * fs / 44100, 1438 * fs / 44100, 1625 * fs / 44100]
    briBufL := fun _ _ => 0
    briBufR := fun _ _ => 0
    briPtrL := fun _ => 0
    briPtrR := fun _ => 0
    tcLen := ![1116 * fs / 44100, 1356 * fs / 44100, 1422 * fs / 44100, 1610 * fs / 44100,
      1850 * fs / 44100, 1990 * fs / 44100, 2251 * fs / 44100, 2393 * fs / 44100]
    tcBuf := fun _ _ => 0
    tcPtr := fun _ => 0
    preLen := fs
    preBuf := fun _ => 0
    prePtr := 0
    lfo := 0 }

/-- `Math.max(0.1, parameters.rt60[0])`: the RT60 clamp applied before
any gain derivation. -/
def rt60Clamped (p : Params F) : F := max 0.1 p.rt60

/-- Lexicon feedback gain `Math.pow(10, -3 / (rt60 * 1.5))` — note it
depends on neither the delay-line length nor the sample rate. -/
def gLex (pow10 : F → F) (p : Params F) : F := pow10 (-3 / (rt60Clamped p * 1.5))

/-- Bricasti feedback gain `Math.pow(10, -3 / (rt60 * 0.85))`. -/
def gBri (pow10 : F → F) (p : Params F) : F := pow10 (-3 / (rt60Clamped p * 0.85))

/-- TC feedback gain `Math.pow(10, -3 / (rt60 * 1.8))`. -/
def gTc (pow10 : F → F) (p : Params F) : F := pow10 (-3 / (rt60Clamped p * 1.8))

/-- One iteration of the multi-variant sample loop (lines 454-506):
pre-delay, then exactly one algorithm branch selected by `mode`.  The
Bricasti branch reads and writes at `ptr % floor(base * briSize)` but
advances its cursors by a plain increment, without any modulus.  `sinF`
is `Math.sin`. -/
def processSample (pow10 sinF : F → F) (fs : ℕ) (p : Params F) (s : State F) (x : F) :
    State F × F × F :=
  let preSamples : ℤ := ⌊min 0.9 p.preDelay * (fs : F)⌋
  let preBuf' : ℕ → F := fun k => if k = s.prePtr then x else s.preBuf k
  let rIdx : ℕ := (((s.prePtr : ℤ) - preSamples + (s.preLen : ℤ)) % (s.preLen : ℤ)).toNat
  let dry := preBuf' rIdx
  let prePtr' := (s.prePtr + 1) % s.preLen
  if p.mode < 0.5 then
    let lfo' := s.lfo + 0.001 * p.lexSpin
    let modv := sinF lfo' * p.lexWander * 10
    let sum := s.lexBuf 0 (s.lexPtr 0) + s.lexBuf 1 (s.lexPtr 1) +
      s.lexBuf 2 (s.lexPtr 2) + s.lexBuf 3 (s.lexPtr 3)
    let mix := sum * 0.25
    let lexBuf' : Fin 4 → ℕ → F := fun j k =>
      if k = s.lexPtr j then (s.lexBuf j (s.lexPtr j) - mix) * gLex pow10 p + dry
      else s.lexBuf j k
    let lexPtr' : Fin 4 → ℕ := fun j => (s.lexPtr j + 1) % s.lexLen j
    let sL := (lexBuf' 0 (lexPtr' 0) + lexBuf' 2 (lexPtr' 2)) * 0.5 + dry * 0.5
    let sR := (lexBuf' 1 (lexPtr' 1) + lexBuf' 3 (lexPtr' 3)) * 0.5 + dry * 0.5
    let _ := modv  -- `mod` is computed but applied nowhere
    ({ s with
        preBuf := preBuf'
        prePtr := prePtr'
        lfo := lfo'
        lexBuf := lexBuf'
        lexPtr := lexPtr' }, sL, sR)
  else if p.mode < 1.5 then
    let lenL : Fin 4 → ℤ := fun j => ⌊(s.briBaseL j : F) * p.briSize⌋
    let lenR : Fin 4 → ℤ := fun j => ⌊(s.briBaseR j : F) * p.briSize⌋
    let idxL : Fin 4 → ℕ := fun j => ((s.briPtrL j : ℤ) % lenL j).toNat
    let idxR : Fin 4 → ℕ := fun j => ((s.briPtrR j : ℤ) % lenR j).toNat
    let vL : Fin 4 → F := fun j => s.briBufL j (idxL j)
    let vR : Fin 4 → F := fun j => s.briBufR j (idxR j)
    let briBufL' : Fin 4 → ℕ → F := fun j k =>
      if k = idxL j then dry + vL j * gBri pow10 p * p.briDensity else s.briBufL j k
    let briBufR' : Fin 4 → ℕ → F := fun j k =>
      if k = idxR j then dry + vR j * gBri pow10 p * p.briDensity else s.briBufR j k
    let briPtrL' : Fin 4 → ℕ := fun j => s.briPtrL j + 1
    let briPtrR' : Fin 4 → ℕ := fun j => s.briPtrR j + 1
    let combL := vL 0 + vL 1 + vL 2 + vL 3
    let combR := vR 0 + vR 1 + vR 2 + vR 3
    ({ s with
        preBuf := preBuf'
        prePtr := prePtr'
        briBufL := briBufL'
        briBufR := briBufR'
        briPtrL := briPtrL'
        briPtrR := briPtrR' }, combL * 0.25, combR * 0.25)
  else
    let sum := s.tcBuf 0 (s.tcPtr 0) + s.tcBuf 1 (s.tcPtr 1) + s.tcBuf 2 (s.tcPtr 2) +
      s.tcBuf 3 (s.tcPtr 3) + s.tcBuf 4 (s.tcPtr 4) + s.tcBuf 5 (s.tcPtr 5) +
      s.tcBuf 6 (s.tcPtr 6) + s.tcBuf 7 (s.tcPtr 7)
    let mix := (sum * 0.125) * p.tcAir
    let damp := 1 - p.tcHiDamp * 0.2
    let tcBuf' : Fin 8 → ℕ → F := fun j k =>
      if k = s.tcPtr j then (s.tcBuf j (s.tcPtr j) - mix) * gTc pow10 p * damp + dry
      else s.tcBuf j k
    let tcPtr' : Fin 8 → ℕ := fun j => (s.tcPtr j + 1) % s.tcLen j
    let sL := (tcBuf' 0 (tcPtr' 0) + tcBuf' 2 (tcPtr' 2)) * (1 - p.tcEarlyLate) +
      dry * p.tcEarlyLate
    let sR := (tcBuf' 1 (tcPtr' 1) + tcBuf' 3 (tcPtr' 3)) * (1 - p.tcEarlyLate) +
      dry * p.tcEarlyLate
    ({ s with
        preBuf := preBuf'
        prePtr := prePtr'
        tcBuf := tcBuf'
        tcPtr := tcPtr' }, sL, sR)

/-- The whole sample loop over one block's input channel. -/
def processBlock (pow10 sinF : F → F) (fs : ℕ) (p : Params F) :
    List F → State F → State F × List (F × F)
  | [], s => (s, [])
  | x :: rest, s =>
    let step := processSample pow10 sinF fs p s x
    let next := processBlock pow10 sinF fs p rest step.1
    (next.1, step.2 :: next.2)

/-- The multi-variant `process`: `const input = inputs[0]?.[0];
if (!input) return true;` — with no input available the method returns
`true` immediately, touching no state and writing no output. -/
def process (pow10 sinF : F → F) (fs : ℕ) (p : Params F)
    (inputs : List (List (List F))) (s : State F) :
    Bool × State F × Option (List (F × F)) :=
  match inputs.head? with
  | none => (true, s, none)
  | some input =>
    match input.head? with
    | none => (true, s, none)
    | some inputChannel =>
      let r := processBlock pow10 sinF fs p inputChannel s
      (true, r.1, some r.2)

/-- Well-formedness of the cursors that are advanced modulo their buffer
length: the pre-delay, Lexicon and TC cursors stay inside `[0, length)`.
The Bricasti cursors are deliberately excluded — they are advanced by a
plain increment. -/
def WFx (s : State F) : Prop :=
  0 < s.preLen ∧ (∀ j, 0 < s.lexLen j) ∧ (∀ j, 0 < s.tcLen j) ∧
    s.prePtr < s.preLen ∧ (∀ j, s.lexPtr j < s.lexLen j) ∧ (∀ j, s.tcPtr j < s.tcLen j)

instance (s : State F) : Decidable (WFx s) := by unfold WFx; infer_instance

end MV

/-! ## Concrete data used by witnesses and counterexamples -/

/-- A settings snapshot with bypass engaged and a non-unity bypass gain. -/
def bypassOnSettings : Settings :=
  { wetGain := 0.6, wetPathDryGain := 1, bypassGain := 0.5, masterGain := 0.5, bypassEffects := true }

/-- A settings snapshot with bypass disengaged. -/
def bypassOffSettings : Settings :=
  { wetGain := 0.6, wetPathDryGain := 1, bypassGain := 0.5, masterGain := 0.5, bypassEffects := false }

/-- Parameter override used to compare two runs of the multi-variant
kernel that differ only in `lexSpin` and `lexWander`. -/
def MV.withSpinWander {F : Type} (p : MV.Params F) (sp w : F) : MV.Params F :=
  { p with lexSpin := sp, lexWander := w }

/-! ## Helper lemmas -/

/-- A write log whose positions all lie below `bound` leaves every
position at or beyond `bound` at the buffer's zero fill. -/
theorem byteAt_eq_zero_of_ge (ws : List (ℕ × ℕ)) (i bound : ℕ)
    (h : ∀ pb ∈ ws, Prod.fst pb < bound) (hi : bound ≤ i) : byteAt ws i = 0 := by
  induction ws with
  | nil => rfl
  | cons hd tl ih =>
    obtain ⟨p, b⟩ := hd
    have hp := h (p, b) (List.mem_cons_self _ _)
    rw [byteAt, if_neg (by simp at hp; omega)]
    exact ih fun pb hpb => h pb (List.mem_cons_of_mem _ hpb)

/-- `10^e` lies strictly between 0 and 1 for every negative real exponent. -/
theorem pow10_mem_Ioo {e : ℝ} (he : e < 0) : 0 < (10 : ℝ) ^ e ∧ (10 : ℝ) ^ e < 1 :=
  ⟨Real.rpow_pos_of_pos (by norm_num) e,
    Real.rpow_lt_one_of_one_lt_of_neg (by norm_num) he⟩

/-! ## Safety-limiter claim -/

/-- **C3.** On a safety-monitor poll, a window whose peak absolute
amplitude exceeds 1.5 makes `checkLevel` assign 0 to the master gain
directly (`setValue`, not a smoothed ramp), fire the one-shot auto-mute
notification and stop polling (until the engine is re-initialised, which
is what re-arms the monitor); a window of peak 1.4 never triggers any of
this and polling continues. -/
theorem C3_safety_limiter :
    (∀ w, peakAbs w > 1.5 → checkLevel w =
      { gainCmd := some (GainCommand.setValue 0), notified := true, continuePolling := false }) ∧
    (∀ w, peakAbs w = 1.4 → checkLevel w =
      { gainCmd := none, notified := false, continuePolling := true }) := by
  constructor
  · intro w h
    simp [checkLevel, h]
  · intro w h
    rw [checkLevel, h]
    norm_num

/-- Witness for C3 at the spec's test windows of peak 1.6 and 1.4. -/
theorem C3_witness :
    checkLevel [1.6] =
      { gainCmd := some (GainCommand.setValue 0), notified := true, continuePolling := false } ∧
    checkLevel [1.4] =
      { gainCmd := none, notified := false, continuePolling := true } :=
  ⟨C3_safety_limiter.1 [1.6] (by norm_num [peakAbs, abs_of_pos]),
   C3_safety_limiter.2 [1.4] (by norm_num [peakAbs, abs_of_pos])⟩

/-- **C4.** The WAV encoder's per-sample conversion clamps to `[-1, 1]`
and scales negative values by 32768 and non-negative ones by 32767
(with the store's truncation, and the 16-bit wrap of `setInt16` never
distorting the result); in particular `1.0 ↦ 32767`, `-1.0 ↦ -32768`,
`0.0 ↦ 0`. -/
theorem C4_sample_conversion :
    (∀ x : ℚ, floatToInt16 x = specConvert x) ∧
    floatToInt16 1 = 32767 ∧ floatToInt16 (-1) = -32768 ∧ floatToInt16 0 = 0 := by
  have hmain : ∀ x : ℚ, floatToInt16 x = specConvert x := by
    intro x
    have hc1 : -1 ≤ clampSample x := le_max_left _ _
    have hc2 : clampSample x ≤ 1 := max_le (by norm_num) (min_le_left _ _)
    have hs1 : (-32768 : ℚ) ≤ scaleSample (clampSample x) := by
      unfold scaleSample
      split
      · nlinarith
      · nlinarith
    have hs2 : scaleSample (clampSample x) ≤ 32767 := by
      unfold scaleSample
      split
      · nlinarith
      · nlinarith
    have ht1 : (-32768 : ℤ) ≤ truncQ (scaleSample (clampSample x)) := by
      unfold truncQ
      split
      · have : (⌊-scaleSample (clampSample x)⌋ : ℤ) ≤ 32768 := by
          have := Int.floor_le_floor (α := ℚ) (neg_le_neg hs1)
          simpa using this
        omega
      · have : (0 : ℤ) ≤ ⌊scaleSample (clampSample x)⌋ := Int.floor_nonneg.mpr (by linarith)
        omega
    have ht2 : truncQ (scaleSample (clampSample x)) ≤ 32767 := by
      unfold truncQ
      split
      · have : (0 : ℤ) ≤ ⌊-scaleSample (clampSample x)⌋ := by
          apply Int.floor_nonneg.mpr
          linarith
        omega
      · have := Int.floor_le_floor (α := ℚ) hs2
        simpa using this
    unfold floatToInt16 specConvert wrapInt16
    omega
  refine ⟨hmain, ?_, ?_, ?_⟩ <;>
    norm_num [floatToInt16, clampSample, scaleSample, truncQ, wrapInt16, max_def, min_def]

/-- **C6 counterexample.** The multi-algorithm snapshot's offline
renderer (`src/unnamed/part_001` line 630) sizes its output to exactly
the input length: for a 3-second input at 44100 Hz with
`reverbDuration = 2`, it yields 132300 samples, not the claimed
`ceil((3 + 2 + 0.5) * 44100) = 242550`. -/
theorem C6_counterexample :
    renderLengthMV 132300 ≠ ⌈(((132300 : ℕ) : ℚ) / 44100 + 2 + 0.5) * 44100⌉₊ := by
  have : (((132300 : ℕ) : ℚ) / 44100 + 2 + 0.5) * 44100 = 242550 := by norm_num
  rw [renderLengthMV, this]
  norm_num

/-- **C6 (amended).** The primary engine's offline render
(`src/services/audioEngine.ts` lines 229-230, likewise the first
`src/unnamed/part_001` snapshot) produces exactly
`ceil((D + R + 0.5) * fs)` samples for input duration `D = srcLen / fs`,
which equals `srcLen + ceil((R + 0.5) * fs)`; the multi-algorithm
snapshot's renderer instead produces exactly the input length, with no
reverb tail or guard. -/
theorem C6_amended_render_length :
    (∀ (srcLen fs : ℕ) (R : ℚ), 0 < fs → 0 ≤ R →
      renderLength srcLen fs R = ⌈((srcLen : ℚ) / fs + R + 0.5) * fs⌉₊ ∧
      renderLength srcLen fs R = srcLen + ⌈(R + 0.5) * (fs : ℚ)⌉₊) ∧
    (∀ n, renderLengthMV n = n) := by
  refine ⟨fun srcLen fs R hfs hR => ⟨rfl, ?_⟩, fun n => rfl⟩
  have hfs' : ((fs : ℚ)) ≠ 0 := by positivity
  have hexp : ((srcLen : ℚ) / fs + R + 0.5) * fs = (R + 0.5) * fs + srcLen := by
    field_simp
    ring
  rw [renderLength, hexp, Nat.ceil_add_nat (by positivity), Nat.add_comm]

/-- Witness for C6 at the spec's §8 instance: 3 s of input at 48000 Hz
with a 2 s reverb duration. -/
theorem C6_witness :
    renderLength 144000 48000 2 = ⌈(((144000 : ℕ) : ℚ) / 48000 + 2 + 0.5) * 48000⌉₊ ∧
    renderLength 144000 48000 2 = 144000 + ⌈((2 : ℚ) + 0.5) * (48000 : ℚ)⌉₊ :=
  C6_amended_render_length.1 144000 48000 2 (by norm_num) (by norm_num)

/-- **C7 counterexample.** In `src/services/audioEngine.ts` the
bypassed offline render routes the source through the bypass gain node
straight to the destination — there is no master-gain stage — so with
`bypassGain = 0.5` and `masterGain = 0.5` a unit sample renders to 0.5,
not to the claimed `bypassGain * masterGain = 0.25`. -/
theorem C7_counterexample :
    bypassRenderA bypassOnSettings 1 ≠ bypassRenderClaim bypassOnSettings 1 := by
  norm_num [bypassRenderA, bypassRenderClaim, bypassOnSettings]

/-- **C7 (amended).** With bypass enabled, offline rendering skips the
wet and dry paths entirely; the per-sample transfer is the bypass gain
alone in `src/services/audioEngine.ts` (that render has no master-gain
stage) and the master gain alone in the first `src/unnamed/part_001`
snapshot (whose bypass branch has no bypass-gain node; its live bypass
level is the fixed contract value 1.0). -/
theorem C7_amended_bypass_render :
    ∀ (s : Settings) (x : ℚ),
      bypassRenderA s x = s.bypassGain * x ∧
      bypassRenderB s x = s.masterGain * x ∧
      bypassRenderClaim s x = s.masterGain * bypassRenderA s x :=
  fun _ _ => ⟨rfl, rfl, rfl⟩

/-- **C8 counterexample.** With bypass enabled,
`src/services/audioEngine.ts` ramps the bypass gain to the user's
`settings.bypassGain` (here 0.5), not to the claimed contract
passthrough value 1.0. -/
theorem C8_counterexample :
    (updateSettingsA bypassOnSettings).bypass ≠ GainCommand.setTarget 1 0.05 := by
  norm_num [updateSettingsA, bypassOnSettings]

/-- **C8 (amended).** Applying settings with bypass enabled ramps the
wet and wet-path-dry gains to 0 and the bypass gain to
`settings.bypassGain` in `src/services/audioEngine.ts` (the first
`src/unnamed/part_001` snapshot ramps it to the fixed contract value 1.0
and also ramps the master gain); with bypass disabled, the bypass gain
ramps to 0 and the wet gains restore to the current user-set values.
All of these are smoothed `setTarget` ramps with time constant 0.05. -/
theorem C8_amended_bypass_settings :
    ∀ s : Settings,
      (s.bypassEffects = true →
        updateSettingsA s = ⟨GainCommand.setTarget 0 0.05, GainCommand.setTarget 0 0.05,
          GainCommand.setTarget s.bypassGain 0.05⟩ ∧
        updateSettingsB s = ⟨GainCommand.setTarget 0 0.05, GainCommand.setTarget 0 0.05,
          GainCommand.setTarget 1 0.05, GainCommand.setTarget s.masterGain 0.05⟩) ∧
      (s.bypassEffects = false →
        updateSettingsA s = ⟨GainCommand.setTarget s.wetGain 0.05,
          GainCommand.setTarget s.wetPathDryGain 0.05, GainCommand.setTarget 0 0.05⟩ ∧
        updateSettingsB s = ⟨GainCommand.setTarget s.wetGain 0.05,
          GainCommand.setTarget s.wetPathDryGain 0.05, GainCommand.setTarget 0 0.05,
          GainCommand.setTarget s.masterGain 0.05⟩) := by
  intro s
  constructor
  · intro h
    simp [updateSettingsA, updateSettingsB, h]
  · intro h
    simp [updateSettingsA, updateSettingsB, h]

/-- Witness for C8 at concrete bypass-on and bypass-off settings. -/
theorem C8_witness :
    (updateSettingsA bypassOnSettings = ⟨GainCommand.setTarget 0 0.05,
      GainCommand.setTarget 0 0.05, GainCommand.setTarget bypassOnSettings.bypassGain 0.05⟩ ∧
     updateSettingsB bypassOnSettings = ⟨GainCommand.setTarget 0 0.05,
      GainCommand.setTarget 0 0.05, GainCommand.setTarget 1 0.05,
      GainCommand.setTarget bypassOnSettings.masterGain 0.05⟩) ∧
    (updateSettingsA bypassOffSettings = ⟨GainCommand.setTarget bypassOffSettings.wetGain 0.05,
      GainCommand.setTarget bypassOffSettings.wetPathDryGain 0.05,
      GainCommand.setTarget 0 0.05⟩ ∧
     updateSettingsB bypassOffSettings = ⟨GainCommand.setTarget bypassOffSettings.wetGain 0.05,
      GainCommand.setTarget bypassOffSettings.wetPathDryGain 0.05,
      GainCommand.setTarget 0 0.05, GainCommand.setTarget bypassOffSettings.masterGain 0.05⟩) :=
  ⟨(C8_amended_bypass_settings bypassOnSettings).1 rfl,
   (C8_amended_bypass_settings bypassOffSettings).2 rfl⟩

set_option maxHeartbeats 8000000 in
/-- **C5.** For a rendered buffer of `frames` frames, `chans` channels
at sample rate `fs` (all small enough for their header fields, as every
real render is), `bufferToWav` emits a 44-byte header whose RIFF size
field equals `totalBytes - 8`, whose 16-byte `fmt ` sub-chunk carries
PCM format code 1, channel count, sample rate, byte rate
`fs * 2 * chans`, block align `chans * 2` and bit depth 16, and whose
`data` sub-chunk size equals `frames * chans * 2`; no header byte is
written at or beyond offset 44. -/
theorem C5_wav_header :
    ∀ frames chans fs : ℕ,
      frames * chans * 2 + 36 < 4294967296 →
      chans < 65536 →
      fs < 4294967296 →
      fs * 2 * chans < 4294967296 →
      chans * 2 < 65536 →
      readU32 (wavHeader frames chans fs) 4 = frames * chans * 2 + 44 - 8 ∧
      readU32 (wavHeader frames chans fs) 16 = 16 ∧
      readU16 (wavHeader frames chans fs) 20 = 1 ∧
      readU16 (wavHeader frames chans fs) 22 = chans ∧
      readU32 (wavHeader frames chans fs) 24 = fs ∧
      readU32 (wavHeader frames chans fs) 28 = fs * 2 * chans ∧
      readU16 (wavHeader frames chans fs) 32 = chans * 2 ∧
      readU16 (wavHeader frames chans fs) 34 = 16 ∧
      readU32 (wavHeader frames chans fs) 40 = frames * chans * 2 ∧
      (∀ i, 44 ≤ i → wavHeader frames chans fs i = 0) := by
  intro frames chans fs h36 hch hfs hbr hba
  refine ⟨?_, ?_, ?_, ?_, ?_, ?_, ?_, ?_, ?_, ?_⟩
  all_goals try
    (intro i hi
     show byteAt (wavWrites frames chans fs) i = 0
     refine byteAt_eq_zero_of_ge _ i 44 ?_ hi
     intro pb hpb
     obtain ⟨p, b⟩ := pb
     simp only [wavWrites, u32bytes, u16bytes, strBytes, List.cons_append, List.nil_append,
       List.mem_cons, List.not_mem_nil, or_false, Prod.mk.injEq] at hpb
     omega)
  all_goals
    simp only [wavHeader, wavWrites, u32bytes, u16bytes, strBytes, List.cons_append,
      List.nil_append, byteAt, readU32, readU16, Nat.reduceAdd, Nat.reduceEqDiff,
      Nat.reduceMod, reduceIte]
  all_goals omega

/-- Witness for C5: a 48000-frame stereo buffer at 48000 Hz — the
header reports 2 channels, sample rate 48000, and RIFF size
`dataBytes + 36`. -/
theorem C5_witness :
    readU16 (wavHeader 48000 2 48000) 22 = 2 ∧
    readU32 (wavHeader 48000 2 48000) 24 = 48000 ∧
    readU32 (wavHeader 48000 2 48000) 4 = 48000 * 2 * 2 + 44 - 8 := by
  obtain ⟨h4, -, -, h22, h24, -, -, -, -, -⟩ :=
    C5_wav_header 48000 2 48000 (by norm_num) (by norm_num) (by norm_num)
      (by norm_num) (by norm_num)
  exact ⟨h22, h24, h4⟩

/-! ## C1: feedback-gain derivation -/

/-- **C1 counterexample.** The multi-variant kernel does not derive its
per-pass gain from the delay-line length: at `rt60 = 2`, its Lexicon
gain is `10^(-3 / (2 * 1.5)) = 10^(-1)`, which differs from the claimed
`10^(-3 * L / (rt60 * fs))` at its own line length `L = lexLen 0 = 1487`
and sample rate `fs = 44100`. -/
theorem C1_counterexample :
    MV.gLex (fun e : ℝ => (10 : ℝ) ^ e) ⟨0, 2, 0, 0, 0, 0, 1, 0, 0, 0⟩ ≠
      (10 : ℝ) ^ ((-3 * (((MV.initState 44100 : MV.State ℝ).lexLen 0 : ℕ) : ℝ)) /
        (2 * (44100 : ℝ))) := by
  have hlen : (MV.initState 44100 : MV.State ℝ).lexLen 0 = 1487 := by
    norm_num [MV.initState]
  rw [hlen]
  have hclamp : MV.rt60Clamped (⟨0, 2, 0, 0, 0, 0, 1, 0, 0, 0⟩ : MV.Params ℝ) = 2 := by
    unfold MV.rt60Clamped
    exact max_eq_right (by norm_num)
  unfold MV.gLex
  rw [hclamp]
  refine ne_of_lt ?_
  rw [Real.rpow_lt_rpow_left_iff (by norm_num : (1 : ℝ) < 10)]
  norm_num

/-- **C1 (amended).** The single-variant kernel derives its per-pass
gain as `10^(-3 * L / (rt60 * fs))` from each line's length `L`, and the
gain lies strictly between 0 and 1 for every length `L ≥ 1`, sample rate
`fs > 0` and `rt60 ∈ [0.1, 10]`.  The multi-variant kernel instead uses
length-independent per-algorithm gains `10^(-3 / (max(0.1, rt60) * c))`
with `c = 1.5 / 0.85 / 1.8`; these also lie strictly between 0 and 1,
for every `rt60`. -/
theorem C1_amended_gain :
    (∀ (L fs : ℕ) (rt60 : ℝ), 1 ≤ L → 0 < fs → 0.1 ≤ rt60 → rt60 ≤ 10 →
      RP.gain (fun e : ℝ => (10 : ℝ) ^ e) L rt60 fs =
          (10 : ℝ) ^ ((-3 * (L : ℝ)) / (rt60 * (fs : ℝ))) ∧
        0 < RP.gain (fun e : ℝ => (10 : ℝ) ^ e) L rt60 fs ∧
        RP.gain (fun e : ℝ => (10 : ℝ) ^ e) L rt60 fs < 1) ∧
    (∀ p : MV.Params ℝ,
      (0 < MV.gLex (fun e : ℝ => (10 : ℝ) ^ e) p ∧
        MV.gLex (fun e : ℝ => (10 : ℝ) ^ e) p < 1) ∧
      (0 < MV.gBri (fun e : ℝ => (10 : ℝ) ^ e) p ∧
        MV.gBri (fun e : ℝ => (10 : ℝ) ^ e) p < 1) ∧
      (0 < MV.gTc (fun e : ℝ => (10 : ℝ) ^ e) p ∧
        MV.gTc (fun e : ℝ => (10 : ℝ) ^ e) p < 1)) := by
  constructor
  · intro L fs rt60 hL hfs h1 h2
    have hL' : (1 : ℝ) ≤ (L : ℝ) := by exact_mod_cast hL
    have hfs' : (0 : ℝ) < (fs : ℝ) := by exact_mod_cast hfs
    have hrt : (0 : ℝ) < rt60 := lt_of_lt_of_le (by norm_num) h1
    have he : (-3 * (L : ℝ)) / (rt60 * (fs : ℝ)) < 0 :=
      div_neg_of_neg_of_pos (by linarith) (by positivity)
    exact ⟨rfl, (pow10_mem_Ioo he).1, (pow10_mem_Ioo he).2⟩
  · intro p
    have hrt : (0 : ℝ) < MV.rt60Clamped p := lt_of_lt_of_le (by norm_num) (le_max_left _ _)
    have he1 : (-3 : ℝ) / (MV.rt60Clamped p * 1.5) < 0 :=
      div_neg_of_neg_of_pos (by norm_num) (by positivity)
    have he2 : (-3 : ℝ) / (MV.rt60Clamped p * 0.85) < 0 :=
      div_neg_of_neg_of_pos (by norm_num) (by positivity)
    have he3 : (-3 : ℝ) / (MV.rt60Clamped p * 1.8) < 0 :=
      div_neg_of_neg_of_pos (by norm_num) (by positivity)
    exact ⟨⟨(pow10_mem_Ioo he1).1, (pow10_mem_Ioo he1).2⟩,
      ⟨(pow10_mem_Ioo he2).1, (pow10_mem_Ioo he2).2⟩,
      ⟨(pow10_mem_Ioo he3).1, (pow10_mem_Ioo he3).2⟩⟩

/-- Witness for C1 at the kernel's own first line length 1331, the
default `rt60 = 1.5`, `fs = 48000`, and at default multi-variant
parameters. -/
theorem C1_witness :
    (RP.gain (fun e : ℝ => (10 : ℝ) ^ e) 1331 1.5 48000 =
        (10 : ℝ) ^ ((-3 * ((1331 : ℕ) : ℝ)) / (1.5 * ((48000 : ℕ) : ℝ))) ∧
      0 < RP.gain (fun e : ℝ => (10 : ℝ) ^ e) 1331 1.5 48000 ∧
      RP.gain (fun e : ℝ => (10 : ℝ) ^ e) 1331 1.5 48000 < 1) ∧
    (0 < MV.gLex (fun e : ℝ => (10 : ℝ) ^ e) ⟨0, 2.4, 0.03, 0.6, 0.4, 0.75, 1, 0.5, 0.4, 0.6⟩ ∧
      MV.gLex (fun e : ℝ => (10 : ℝ) ^ e) ⟨0, 2.4, 0.03, 0.6, 0.4, 0.75, 1, 0.5, 0.4, 0.6⟩ < 1) :=
  ⟨C1_amended_gain.1 1331 48000 1.5 (by norm_num) (by norm_num) (by norm_num) (by norm_num),
   (C1_amended_gain.2 ⟨0, 2.4, 0.03, 0.6, 0.4, 0.75, 1, 0.5, 0.4, 0.6⟩).1⟩

/-! ## Cursor invariants (C2) -/

/-- One `processSample` step of the single-variant kernel keeps every
cursor inside `[0, length)`. -/
theorem RP.processSample_WF {F : Type} [LinearOrderedField F] [FloorRing F]
    (pow10 : F → F) (fs : ℕ) (p : RP.Params F) (s : RP.State F) (x : F)
    (h : RP.WF s) : RP.WF (RP.processSample pow10 fs p s x).1 := by
  obtain ⟨h1, h2, h3, h4⟩ := h
  simp only [RP.processSample]
  exact ⟨h1, h2, fun j => Nat.mod_lt _ (h1 j), Nat.mod_lt _ h2⟩

/-- Well-formedness of the single-variant kernel is preserved over any
input block (hence after each processed sample, any prefix of the input
being itself a block). -/
theorem RP.processBlock_WF {F : Type} [LinearOrderedField F] [FloorRing F]
    (pow10 : F → F) (fs : ℕ) (p : RP.Params F) :
    ∀ (input : List F) (s : RP.State F), RP.WF s →
      RP.WF (RP.processBlock pow10 fs p input s).1
  | [], _, h => h
  | x :: rest, s, h => by
    simp only [RP.processBlock]
    exact RP.processBlock_WF pow10 fs p rest _ (RP.processSample_WF pow10 fs p s x h)

/-- One `processSample` step of the multi-variant kernel keeps the
pre-delay, Lexicon and TC cursors inside `[0, length)`, whichever branch
runs. -/
theorem MV.processSample_WFx {F : Type} [LinearOrderedField F] [FloorRing F]
    (pow10 sinF : F → F) (fs : ℕ) (p : MV.Params F) (s : MV.State F) (x : F)
    (h : MV.WFx s) : MV.WFx (MV.processSample pow10 sinF fs p s x).1 := by
  obtain ⟨h1, h2, h3, h4, h5, h6⟩ := h
  by_cases hm : p.mode < 0.5
  · simp only [MV.processSample, if_pos hm]
    exact ⟨h1, h2, h3, Nat.mod_lt _ h1, fun j => Nat.mod_lt _ (h2 j), h6⟩
  · by_cases hm2 : p.mode < 1.5
    · simp only [MV.processSample, if_neg hm, if_pos hm2]
      exact ⟨h1, h2, h3, Nat.mod_lt _ h1, h5, h6⟩
    · simp only [MV.processSample, if_neg hm, if_neg hm2]
      exact ⟨h1, h2, h3, Nat.mod_lt _ h1, h5, fun j => Nat.mod_lt _ (h3 j)⟩

/-- `MV.WFx` is preserved over any input block. -/
theorem MV.processBlock_WFx {F : Type} [LinearOrderedField F] [FloorRing F]
    (pow10 sinF : F → F) (fs : ℕ) (p : MV.Params F) :
    ∀ (input : List F) (s : MV.State F), MV.WFx s →
      MV.WFx (MV.processBlock pow10 sinF fs p input s).1
  | [], _, h => h
  | x :: rest, s, h => by
    simp only [MV.processBlock]
    exact MV.processBlock_WFx pow10 sinF fs p rest _
      (MV.processSample_WFx pow10 sinF fs p s x h)

/-- In the Bricasti branch each left comb cursor advances by a plain
increment, with no modulus. -/
theorem MV.processSample_briPtrL {F : Type} [LinearOrderedField F] [FloorRing F]
    (pow10 sinF : F → F) (fs : ℕ) (p : MV.Params F)
    (hm1 : ¬ p.mode < 0.5) (hm2 : p.mode < 1.5) (s : MV.State F) (x : F) (j : Fin 4) :
    (MV.processSample pow10 sinF fs p s x).1.briPtrL j = s.briPtrL j + 1 := by
  simp only [MV.processSample, if_neg hm1, if_pos hm2]

/-- In Bricasti mode the left comb cursors count exactly the processed
samples. -/
theorem MV.processBlock_briPtrL {F : Type} [LinearOrderedField F] [FloorRing F]
    (pow10 sinF : F → F) (fs : ℕ) (p : MV.Params F)
    (hm1 : ¬ p.mode < 0.5) (hm2 : p.mode < 1.5) (j : Fin 4) :
    ∀ (input : List F) (s : MV.State F),
      (MV.processBlock pow10 sinF fs p input s).1.briPtrL j = s.briPtrL j + input.length
  | [], s => by simp [MV.processBlock]
  | x :: rest, s => by
    simp only [MV.processBlock, List.length_cons]
    rw [MV.processBlock_briPtrL pow10 sinF fs p hm1 hm2 j rest _,
      MV.processSample_briPtrL pow10 sinF fs p hm1 hm2 s x j]
    omega

/-- **C2 counterexample.** Running the multi-variant kernel in Bricasti
mode (`mode = 1`, otherwise default parameters) on 6696 zero samples
drives the first left comb cursor to 6696, which is not inside
`[0, 6696)` — the allocated length `briBaseL 0 * 6` of its buffer at
44100 Hz. -/
theorem C2_counterexample :
    ¬ ((MV.processBlock (fun e : ℝ => (10 : ℝ) ^ e) Real.sin 44100
          ⟨1, 2.4, 0.03, 0.6, 0.4, 0.75, 1, 0.5, 0.4, 0.6⟩
          (List.replicate 6696 (0 : ℝ)) (MV.initState 44100)).1.briPtrL 0 <
        (MV.initState 44100 : MV.State ℝ).briBaseL 0 * 6) := by
  have h := MV.processBlock_briPtrL (fun e : ℝ => (10 : ℝ) ^ e) Real.sin 44100
      ⟨1, 2.4, 0.03, 0.6, 0.4, 0.75, 1, 0.5, 0.4, 0.6⟩
      (by norm_num : ¬ (1 : ℝ) < 0.5) (by norm_num : (1 : ℝ) < 1.5) 0
      (List.replicate 6696 (0 : ℝ)) (MV.initState 44100)
  rw [h]
  norm_num [MV.initState]

/-- **C2 (amended).** Over every sequence of processed samples, the
single-variant kernel keeps all of its delay cursors and its pre-delay
cursor inside `[0, length)`, and the multi-variant kernel keeps its
pre-delay, Lexicon and TC cursors inside `[0, length)`; the Bricasti
comb cursors, however, advance by a plain increment per processed sample
(their buffer accesses reduce them modulo the effective comb length),
so they do not remain below their buffer length. -/
theorem C2_amended_cursors :
    (∀ (p : RP.Params ℝ) (fs : ℕ) (input : List ℝ) (s : RP.State ℝ),
      RP.WF s → RP.WF (RP.processBlock (fun e : ℝ => (10 : ℝ) ^ e) fs p input s).1) ∧
    (∀ (p : MV.Params ℝ) (fs : ℕ) (input : List ℝ) (s : MV.State ℝ),
      MV.WFx s →
        MV.WFx (MV.processBlock (fun e : ℝ => (10 : ℝ) ^ e) Real.sin fs p input s).1) ∧
    (∀ (p : MV.Params ℝ) (fs : ℕ) (input : List ℝ) (s : MV.State ℝ) (j : Fin 4),
      0.5 ≤ p.mode → p.mode < 1.5 →
      (MV.processBlock (fun e : ℝ => (10 : ℝ) ^ e) Real.sin fs p input s).1.briPtrL j =
        s.briPtrL j + input.length) :=
  ⟨fun p fs input s h => RP.processBlock_WF _ fs p input s h,
   fun p fs input s h => MV.processBlock_WFx _ _ fs p input s h,
   fun p fs input s j h1 h2 =>
     MV.processBlock_briPtrL _ _ fs p (not_lt.mpr h1) h2 j input s⟩

/-- Witness for C2: freshly constructed kernels at their default sample
rates, processing a two-sample block. -/
theorem C2_witness :
    RP.WF (RP.processBlock (fun e : ℝ => (10 : ℝ) ^ e) 48000 ⟨1.5, 2.2, 0.05⟩
      [1, 0] (RP.initState 48000)).1 ∧
    MV.WFx (MV.processBlock (fun e : ℝ => (10 : ℝ) ^ e) Real.sin 44100
      ⟨0, 2.4, 0.03, 0.6, 0.4, 0.75, 1, 0.5, 0.4, 0.6⟩ [1, 0] (MV.initState 44100)).1 ∧
    (MV.processBlock (fun e : ℝ => (10 : ℝ) ^ e) Real.sin 44100
        ⟨1, 2.4, 0.03, 0.6, 0.4, 0.75, 1, 0.5, 0.4, 0.6⟩ [1, 0]
        (MV.initState 44100)).1.briPtrL 0 =
      (MV.initState 44100 : MV.State ℝ).briPtrL 0 + ([1, 0] : List ℝ).length :=
  ⟨C2_amended_cursors.1 ⟨1.5, 2.2, 0.05⟩ 48000 [1, 0] (RP.initState 48000) (by decide),
   C2_amended_cursors.2.1 ⟨0, 2.4, 0.03, 0.6, 0.4, 0.75, 1, 0.5, 0.4, 0.6⟩ 44100 [1, 0]
     (MV.initState 44100) (by decide),
   C2_amended_cursors.2.2 ⟨1, 2.4, 0.03, 0.6, 0.4, 0.75, 1, 0.5, 0.4, 0.6⟩ 44100 [1, 0]
     (MV.initState 44100) 0 (by norm_num : (0.5 : ℝ) ≤ 1) (by norm_num : (1 : ℝ) < 1.5)⟩

/-! ## Oscillator independence (C9) -/

@[simp] theorem MV.withSpinWander_mode {F : Type} (p : MV.Params F) (sp w : F) :
    (MV.withSpinWander p sp w).mode = p.mode := rfl

@[simp] theorem MV.withSpinWander_preDelay {F : Type} (p : MV.Params F) (sp w : F) :
    (MV.withSpinWander p sp w).preDelay = p.preDelay := rfl

@[simp] theorem MV.withSpinWander_lexSpin {F : Type} (p : MV.Params F) (sp w : F) :
    (MV.withSpinWander p sp w).lexSpin = sp := rfl

@[simp] theorem MV.withSpinWander_lexWander {F : Type} (p : MV.Params F) (sp w : F) :
    (MV.withSpinWander p sp w).lexWander = w := rfl

/-- The Lexicon feedback gain does not depend on `lexSpin`/`lexWander`. -/
@[simp] theorem MV.gLex_withSpinWander {F : Type} [LinearOrderedField F] [FloorRing F]
    (pow10 : F → F) (p : MV.Params F) (sp w : F) :
    MV.gLex pow10 (MV.withSpinWander p sp w) = MV.gLex pow10 p := rfl

/-- One Lexicon step run under two different `lexSpin`/`lexWander`
settings, from states that differ only in the oscillator phase, produces
the same output pair, and the resulting states again differ only in the
oscillator phase. -/
theorem MV.processSample_spin_indep {F : Type} [LinearOrderedField F] [FloorRing F]
    (pow10 sinF : F → F) (fs : ℕ) (p : MV.Params F) (sp1 w1 sp2 w2 l : F)
    (s : MV.State F) (x : F) (hm : p.mode < 0.5) :
    (MV.processSample pow10 sinF fs (MV.withSpinWander p sp1 w1) s x).2 =
      (MV.processSample pow10 sinF fs (MV.withSpinWander p sp2 w2)
        { s with lfo := l } x).2 ∧
    (MV.processSample pow10 sinF fs (MV.withSpinWander p sp2 w2) { s with lfo := l } x).1 =
      { (MV.processSample pow10 sinF fs (MV.withSpinWander p sp1 w1) s x).1 with
          lfo := l + 0.001 * sp2 } := by
  constructor <;>
    simp [MV.processSample, if_pos hm]

/-- Block version of `MV.processSample_spin_indep`. -/
theorem MV.processBlock_spin_indep {F : Type} [LinearOrderedField F] [FloorRing F]
    (pow10 sinF : F → F) (fs : ℕ) (p : MV.Params F) (sp1 w1 sp2 w2 : F)
    (hm : p.mode < 0.5) :
    ∀ (input : List F) (s : MV.State F) (l : F),
      (MV.processBlock pow10 sinF fs (MV.withSpinWander p sp1 w1) input s).2 =
        (MV.processBlock pow10 sinF fs (MV.withSpinWander p sp2 w2) input
          { s with lfo := l }).2 ∧
      ∃ l', (MV.processBlock pow10 sinF fs (MV.withSpinWander p sp2 w2) input
          { s with lfo := l }).1 =
        { (MV.processBlock pow10 sinF fs (MV.withSpinWander p sp1 w1) input s).1 with
            lfo := l' }
  | [], s, l => ⟨rfl, l, rfl⟩
  | xh :: rest, s, l => by
    obtain ⟨hout, hstate⟩ :=
      MV.processSample_spin_indep pow10 sinF fs p sp1 w1 sp2 w2 l s xh hm
    simp only [MV.processBlock]
    rw [hstate]
    obtain ⟨htail, l', hfin⟩ :=
      MV.processBlock_spin_indep pow10 sinF fs p sp1 w1 sp2 w2 hm rest
        ((MV.processSample pow10 sinF fs (MV.withSpinWander p sp1 w1) s xh).1)
        (l + 0.001 * sp2)
    exact ⟨by rw [hout, htail], l', hfin⟩

/-- **C9.** In Lexicon mode, two runs of the multi-variant kernel on the
same input and state that differ only in `lexSpin` and `lexWander`
produce identical output samples; the oscillator is advanced
(`lfo' = lfo + 0.001 * lexSpin` each sample) but it affects neither any
delay cursor nor any output — the final states agree on everything but
the oscillator phase. -/
theorem C9_spin_wander_independence :
    ∀ (p : MV.Params ℝ) (sp1 w1 sp2 w2 : ℝ) (fs : ℕ) (input : List ℝ) (s : MV.State ℝ),
      p.mode < 0.5 →
      (MV.processBlock (fun e : ℝ => (10 : ℝ) ^ e) Real.sin fs
          (MV.withSpinWander p sp1 w1) input s).2 =
        (MV.processBlock (fun e : ℝ => (10 : ℝ) ^ e) Real.sin fs
          (MV.withSpinWander p sp2 w2) input s).2 ∧
      (∀ x : ℝ,
        (MV.processSample (fun e : ℝ => (10 : ℝ) ^ e) Real.sin fs
            (MV.withSpinWander p sp1 w1) s x).1.lfo = s.lfo + 0.001 * sp1) ∧
      ∃ l, (MV.processBlock (fun e : ℝ => (10 : ℝ) ^ e) Real.sin fs
          (MV.withSpinWander p sp2 w2) input s).1 =
        { (MV.processBlock (fun e : ℝ => (10 : ℝ) ^ e) Real.sin fs
            (MV.withSpinWander p sp1 w1) input s).1 with lfo := l } := by
  intro p sp1 w1 sp2 w2 fs input s hm
  have hblock := MV.processBlock_spin_indep (fun e : ℝ => (10 : ℝ) ^ e) Real.sin fs p
    sp1 w1 sp2 w2 hm input s s.lfo
  have hs : ({ s with lfo := s.lfo } : MV.State ℝ) = s := rfl
  rw [hs] at hblock
  refine ⟨hblock.1, fun x => ?_, hblock.2⟩
  simp [MV.processSample, if_pos hm]

/-- Witness for C9: default Lexicon parameters with
`(lexSpin, lexWander)` at `(0.6, 0.4)` against `(1.2, 0.9)` on a
two-sample block from a fresh kernel. -/
theorem C9_witness :
    (MV.processBlock (fun e : ℝ => (10 : ℝ) ^ e) Real.sin 44100
        (MV.withSpinWander ⟨0, 2.4, 0.03, 0.6, 0.4, 0.75, 1, 0.5, 0.4, 0.6⟩ 0.6 0.4)
        [1, 0] (MV.initState 44100)).2 =
      (MV.processBlock (fun e : ℝ => (10 : ℝ) ^ e) Real.sin 44100
        (MV.withSpinWander ⟨0, 2.4, 0.03, 0.6, 0.4, 0.75, 1, 0.5, 0.4, 0.6⟩ 1.2 0.9)
        [1, 0] (MV.initState 44100)).2 ∧
    (∀ x : ℝ,
      (MV.processSample (fun e : ℝ => (10 : ℝ) ^ e) Real.sin 44100
          (MV.withSpinWander ⟨0, 2.4, 0.03, 0.6, 0.4, 0.75, 1, 0.5, 0.4, 0.6⟩ 0.6 0.4)
          (MV.initState 44100) x).1.lfo =
        (MV.initState 44100 : MV.State ℝ).lfo + 0.001 * 0.6) ∧
    ∃ l, (MV.processBlock (fun e : ℝ => (10 : ℝ) ^ e) Real.sin 44100
        (MV.withSpinWander ⟨0, 2.4, 0.03, 0.6, 0.4, 0.75, 1, 0.5, 0.4, 0.6⟩ 1.2 0.9)
        [1, 0] (MV.initState 44100)).1 =
      { (MV.processBlock (fun e : ℝ => (10 : ℝ) ^ e) Real.sin 44100
          (MV.withSpinWander ⟨0, 2.4, 0.03, 0.6, 0.4, 0.75, 1, 0.5, 0.4, 0.6⟩ 0.6 0.4)
          [1, 0] (MV.initState 44100)).1 with lfo := l } :=
  C9_spin_wander_independence ⟨0, 2.4, 0.03, 0.6, 0.4, 0.75, 1, 0.5, 0.4, 0.6⟩
    0.6 0.4 1.2 0.9 44100 [1, 0] (MV.initState 44100) (by norm_num : (0 : ℝ) < 0.5)

/-! ## No-input frame effect (C10) -/

/-- **C10.** When `process` finds no input (no first input, or no first
channel), both kernels return `true` immediately, leave every piece of
internal state — delay buffers and cursors, pre-delay buffer and cursor,
lowpass states, oscillator phase — exactly as it was, and write no
output sample. -/
theorem C10_no_input_noop :
    ∀ (pRP : RP.Params ℝ) (pMV : MV.Params ℝ) (fs : ℕ)
      (inputs : List (List (List ℝ))) (s1 : RP.State ℝ) (s2 : MV.State ℝ),
      inputs.head?.bind List.head? = none →
      RP.process (fun e : ℝ => (10 : ℝ) ^ e) fs pRP inputs s1 = (true, s1, none) ∧
      MV.process (fun e : ℝ => (10 : ℝ) ^ e) Real.sin fs pMV inputs s2 = (true, s2, none) := by
  intro pRP pMV fs inputs s1 s2 h
  cases inputs with
  | nil => exact ⟨rfl, rfl⟩
  | cons input rest =>
    cases input with
    | nil => exact ⟨rfl, rfl⟩
    | cons ch chs => simp at h

/-- Witness for C10: an empty `inputs` structure. -/
theorem C10_witness :
    RP.process (fun e : ℝ => (10 : ℝ) ^ e) 48000 ⟨1.5, 2.2, 0.05⟩ []
        (RP.initState 48000) = (true, RP.initState 48000, none) ∧
    MV.process (fun e : ℝ => (10 : ℝ) ^ e) Real.sin 48000
        ⟨0, 2.4, 0.03, 0.6, 0.4, 0.75, 1, 0.5, 0.4, 0.6⟩ [] (MV.initState 44100) =
      (true, MV.initState 44100, none) :=
  C10_no_input_noop ⟨1.5, 2.2, 0.05⟩ ⟨0, 2.4, 0.03, 0.6, 0.4, 0.75, 1, 0.5, 0.4, 0.6⟩
    48000 [] (RP.initState 48000) (MV.initState 44100) rfl

end AudioFx
